import Mathlib

/-!
Verification of the JSONB decoder in src/de.rs of serde-sqlite-jsonb.

The byte stream is modelled as a list of natural numbers; a well formed
stream has every entry below 256. Fallible reads return an explicit
outcome, with a separate constructor for a Rust panic so that the
reachability of the unreachable and todo branches can be settled.
-/

/-- The 16 element type tags of the JSONB format, as in the ElementType
enum of src/de.rs. -/
inductive ElementType where
  | Null
  | True
  | False
  | Int
  | Int5
  | Float
  | Float5
  | Text
  | TextJ
  | Text5
  | TextRaw
  | Array
  | Object
  | Reserved13
  | Reserved14
  | Reserved15
deriving DecidableEq, Repr

/-- The Header struct of src/de.rs. -/
structure Header where
  element_type : ElementType
  payload_size : Nat
deriving DecidableEq, Repr

/-- The error type used by src/de.rs. Only TrailingCharacters,
UnexpectedType (with the single actual-type field, as at every call site
in src/de.rs) and the io errors are exercised by the decoder; Eof stands
for the truncated-read io error from read_exact, ParseError and Overflow
for the literal parse failures of the delegated json parser (the error
enum itself lives in the missing src/error.rs and is modelled from the
spec and from the call sites in src/de.rs). -/
inductive Error where
  | TrailingCharacters
  | UnexpectedType (t : ElementType)
  | Eof
  | ParseError
  | Overflow
deriving DecidableEq, Repr

/-- Result of running a decoding step on a stream: a value together with
the remaining stream, an error, or a Rust panic. -/
inductive Outcome (α : Type) where
  | ok (a : α) (rest : List Nat)
  | err (e : Error)
  | panic
deriving DecidableEq, Repr

/-- Result of a top level from_bytes call. -/
inductive FResult (α : Type) where
  | ok (a : α)
  | err (e : Error)
  | panic
deriving DecidableEq, Repr

/-- Read exactly n bytes from the stream, as Read::read_exact: the n
bytes and the remaining stream, or none when the stream is too short. -/
def read_exact (n : Nat) (s : List Nat) : Option (List Nat × List Nat) :=
  if n ≤ s.length then some (s.take n, s.drop n) else none

/-- The match on the upper four bits in read_header of src/de.rs: how
many trailing length bytes follow the first header byte. The none case
is the unreachable branch. -/
def bytes_to_read (upper_four_bits : Nat) : Option Nat :=
  if upper_four_bits ≤ 11 then some 0
  else if upper_four_bits = 12 then some 1
  else if upper_four_bits = 13 then some 2
  else if upper_four_bits = 14 then some 4
  else if upper_four_bits = 15 then some 8
  else none

/-- The match on the lower four bits in read_header of src/de.rs. The
none case is the unreachable branch. -/
def element_type_of_nibble (lower_four_bits : Nat) : Option ElementType :=
  if lower_four_bits = 0 then some ElementType.Null
  else if lower_four_bits = 1 then some ElementType.True
  else if lower_four_bits = 2 then some ElementType.False
  else if lower_four_bits = 3 then some ElementType.Int
  else if lower_four_bits = 4 then some ElementType.Int5
  else if lower_four_bits = 5 then some ElementType.Float
  else if lower_four_bits = 6 then some ElementType.Float5
  else if lower_four_bits = 7 then some ElementType.Text
  else if lower_four_bits = 8 then some ElementType.TextJ
  else if lower_four_bits = 9 then some ElementType.Text5
  else if lower_four_bits = 10 then some ElementType.TextRaw
  else if lower_four_bits = 11 then some ElementType.Array
  else if lower_four_bits = 12 then some ElementType.Object
  else if lower_four_bits = 13 then some ElementType.Reserved13
  else if lower_four_bits = 14 then some ElementType.Reserved14
  else if lower_four_bits = 15 then some ElementType.Reserved15
  else none

/-- usize::from_be_bytes over a big endian byte list. -/
def usize_from_be_bytes (bs : List Nat) : Nat :=
  bs.foldl (fun acc b => acc * 256 + b) 0

/-- read_header of src/de.rs: one tag byte, then 0, 1, 2, 4 or 8 big
endian length bytes; the buffer is zero filled on the left up to 8 bytes
exactly as the Rust code fills buf[start..8]. -/
def read_header (s : List Nat) : Outcome Header :=
  match s with
  | [] => Outcome.err Error.Eof
  | first_byte :: s1 =>
    match bytes_to_read (first_byte / 16) with
    | none => Outcome.panic
    | some k =>
      match read_exact k s1 with
      | none => Outcome.err Error.Eof
      | some (buf, s2) =>
        let payload_size : Nat :=
          if k = 0 then first_byte / 16
          else usize_from_be_bytes (List.replicate (8 - k) 0 ++ buf)
        match element_type_of_nibble (first_byte % 16) with
        | none => Outcome.panic
        | some t => Outcome.ok { element_type := t, payload_size := payload_size } s2

/-- The fixed 16 entry element type table as the spec writes it in
section 3, used to compare read_header against the spec wording. -/
def spec_element_table : List ElementType :=
  [ElementType.Null, ElementType.True, ElementType.False, ElementType.Int,
   ElementType.Int5, ElementType.Float, ElementType.Float5, ElementType.Text,
   ElementType.TextJ, ElementType.Text5, ElementType.TextRaw, ElementType.Array,
   ElementType.Object, ElementType.Reserved13, ElementType.Reserved14,
   ElementType.Reserved15]

/-- The trailing byte count k of the spec: 0 for high nibbles 0 to 11,
then 1, 2, 4, 8 for 12, 13, 14, 15. -/
def spec_k (hi : Nat) : Nat :=
  if hi ≤ 11 then 0
  else if hi = 12 then 1
  else if hi = 13 then 2
  else if hi = 14 then 4
  else 8

/-- The chunked drain loop inside drop_payload of src/de.rs: while bytes
remain it read_exacts min 256 remaining bytes and discards them. -/
def drop_payload_loop (remaining : Nat) (s : List Nat) : Outcome Unit :=
  if remaining = 0 then Outcome.ok () s
  else
    let len := min 256 remaining
    match read_exact len s with
    | none => Outcome.err Error.Eof
    | some (_, s2) => drop_payload_loop (remaining - len) s2
termination_by remaining
decreasing_by
  rename_i hr
  have h1 : 0 < min 256 remaining := by
    have : 0 < remaining := Nat.pos_of_ne_zero hr
    omega
  omega

/-- drop_payload of src/de.rs: drains the payload bytes of the header
and returns the element type. -/
def drop_payload (h : Header) (s : List Nat) : Outcome ElementType :=
  match drop_payload_loop h.payload_size s with
  | Outcome.ok _ rest => Outcome.ok h.element_type rest
  | Outcome.err e => Outcome.err e
  | Outcome.panic => Outcome.panic

/-- read_bool of src/de.rs: drain the payload, then map True and False
to booleans and reject every other tag. -/
def read_bool (h : Header) (s : List Nat) : Outcome Bool :=
  match drop_payload h s with
  | Outcome.ok _ rest =>
    match h.element_type with
    | ElementType.True => Outcome.ok true rest
    | ElementType.False => Outcome.ok false rest
    | t => Outcome.err (Error.UnexpectedType t)
  | Outcome.err e => Outcome.err e
  | Outcome.panic => Outcome.panic

/-- read_null of src/de.rs: drain the payload, then accept exactly the
Null tag. -/
def read_null (h : Header) (s : List Nat) : Outcome Unit :=
  match drop_payload h s with
  | Outcome.ok _ rest =>
    match h.element_type with
    | ElementType.Null => Outcome.ok () rest
    | t => Outcome.err (Error.UnexpectedType t)
  | Outcome.err e => Outcome.err e
  | Outcome.panic => Outcome.panic

/-- An integer target type of the deserializer (i8 up to u64): the
closed range of representable values, standing for the generic type T of
read_integer in src/de.rs. -/
structure IntTarget where
  lo : Int
  hi : Int
deriving DecidableEq, Repr

/-- The u64 target range. -/
def u64_target : IntTarget := { lo := 0, hi := 18446744073709551615 }

/-- The i64 target range. -/
def i64_target : IntTarget := { lo := -9223372036854775808, hi := 9223372036854775807 }

/-- A decimal digit byte. -/
def is_digit (b : Nat) : Bool := decide (48 ≤ b ∧ b ≤ 57)

/-- The value of a nonoptional run of decimal digit bytes; none when a
byte is not a digit. -/
def digits_value (ds : List Nat) : Option Nat :=
  ds.foldl
    (fun acc d => acc.bind (fun a => if is_digit d then some (a * 10 + (d - 48)) else none))
    (some 0)

/-- Modelled from the spec: the strict json integer literal grammar of
the external literal parser (crate json is not under src, section 6 of
the spec requires it to accept integer literal text up to the full
unsigned and signed 64 bit ranges): an optional minus sign followed by a
nonempty run of decimal digits, covering the whole span. -/
def parse_int_literal (span : List Nat) : Option Int :=
  match span with
  | [] => none
  | 45 :: ds =>
    if ds.isEmpty then none
    else (digits_value ds).map (fun n => -(n : Int))
  | ds => (digits_value ds).map (fun n => (n : Int))

/-- A hexadecimal digit byte value. -/
def hex_digit_value (b : Nat) : Option Nat :=
  if 48 ≤ b ∧ b ≤ 57 then some (b - 48)
  else if 97 ≤ b ∧ b ≤ 102 then some (b - 87)
  else if 65 ≤ b ∧ b ≤ 70 then some (b - 55)
  else none

/-- The value of a nonempty run of hexadecimal digit bytes. -/
def hex_value (hs : List Nat) : Option Nat :=
  hs.foldl
    (fun acc d => acc.bind (fun a => (hex_digit_value d).map (fun v => a * 16 + v)))
    (some 0)

/-- Modelled from the spec: the json5 unsigned integer literal grammar
(crate json is not under src): decimal digits or a 0x prefixed
hexadecimal literal. -/
def parse_json5_nat (ds : List Nat) : Option Nat :=
  match ds with
  | [] => none
  | 48 :: 120 :: hs => if hs.isEmpty then none else hex_value hs
  | 48 :: 88 :: hs => if hs.isEmpty then none else hex_value hs
  | _ => digits_value ds

/-- Modelled from the spec: the json5 integer literal grammar (crate
json is not under src): an optional plus or minus sign, then a decimal
or hexadecimal unsigned literal. -/
def parse_json5_int_literal (span : List Nat) : Option Int :=
  match span with
  | 43 :: ds => (parse_json5_nat ds).map (fun n => (n : Int))
  | 45 :: ds => (parse_json5_nat ds).map (fun n => -(n : Int))
  | ds => (parse_json5_nat ds).map (fun n => (n : Int))

/-- Modelled from the spec: crate json parse_json for an integer target
type (the file is not under src): parse the bounded span as a strict
json integer literal and narrow to the target range, failing with an
overflow error when the value does not fit. -/
def parse_json (t : IntTarget) (span : List Nat) : Except Error Int :=
  match parse_int_literal span with
  | none => Except.error Error.ParseError
  | some v =>
    if t.lo ≤ v ∧ v ≤ t.hi then Except.ok v else Except.error Error.Overflow

/-- Modelled from the spec: crate json parse_json5 for an integer target
type (the file is not under src), as parse_json with the json5 literal
grammar. -/
def parse_json5 (t : IntTarget) (span : List Nat) : Except Error Int :=
  match parse_json5_int_literal span with
  | none => Except.error Error.ParseError
  | some v =>
    if t.lo ≤ v ∧ v ≤ t.hi then Except.ok v else Except.error Error.Overflow

/-- The Read::take bounded view of read_json_compatible in src/de.rs:
the parser sees at most limit bytes; on success it has read its bounded
view to its end, so the stream advances past min limit (length of s)
bytes. -/
def bounded_parse (p : List Nat → Except Error Int) (limit : Nat) (s : List Nat) :
    Outcome Int :=
  match p (s.take limit) with
  | Except.ok v => Outcome.ok v (s.drop (min limit s.length))
  | Except.error e => Outcome.err e

/-- read_json_compatible of src/de.rs at an integer target type. -/
def read_json_compatible (t : IntTarget) (h : Header) (s : List Nat) : Outcome Int :=
  bounded_parse (parse_json t) h.payload_size s

/-- read_json5_compatible of src/de.rs at an integer target type. -/
def read_json5_compatible (t : IntTarget) (h : Header) (s : List Nat) : Outcome Int :=
  bounded_parse (parse_json5 t) h.payload_size s

/-- read_integer of src/de.rs: dispatch on the element type, rejecting
everything that is not Int or Int5. -/
def read_integer (t : IntTarget) (h : Header) (s : List Nat) : Outcome Int :=
  match h.element_type with
  | ElementType.Int => read_json_compatible t h s
  | ElementType.Int5 => read_json5_compatible t h s
  | t2 => Outcome.err (Error.UnexpectedType t2)

/-- The shared shape of every deserialize_x method of src/de.rs: read one
header, then run the per type reader on the remaining stream. -/
def dispatch {α : Type} (f : Header → List Nat → Outcome α) (s : List Nat) : Outcome α :=
  match read_header s with
  | Outcome.ok h rest => f h rest
  | Outcome.err e => Outcome.err e
  | Outcome.panic => Outcome.panic

/-- The value produced by the visitor calls that deserialize_any of
src/de.rs actually performs: visit_unit or visit_bool. -/
inductive AnyValue where
  | unit
  | bool (b : Bool)
deriving DecidableEq, Repr

/-- The body of deserialize_any of src/de.rs after the header is read:
Null and the booleans are handled, every other element type hits the
todo macro, i.e. panics. -/
def visit_any (h : Header) (s : List Nat) : Outcome AnyValue :=
  match h.element_type with
  | ElementType.Null =>
    match read_null h s with
    | Outcome.ok _ rest => Outcome.ok AnyValue.unit rest
    | Outcome.err e => Outcome.err e
    | Outcome.panic => Outcome.panic
  | ElementType.True =>
    match read_bool h s with
    | Outcome.ok b rest => Outcome.ok (AnyValue.bool b) rest
    | Outcome.err e => Outcome.err e
    | Outcome.panic => Outcome.panic
  | ElementType.False =>
    match read_bool h s with
    | Outcome.ok b rest => Outcome.ok (AnyValue.bool b) rest
    | Outcome.err e => Outcome.err e
    | Outcome.panic => Outcome.panic
  | _ => Outcome.panic

/-- deserialize_any of src/de.rs. -/
def deserialize_any : List Nat → Outcome AnyValue := dispatch visit_any

/-- deserialize_bool of src/de.rs. -/
def deserialize_bool : List Nat → Outcome Bool := dispatch read_bool

/-- deserialize_u64 of src/de.rs. -/
def deserialize_u64 : List Nat → Outcome Int := dispatch (read_integer u64_target)

/-- deserialize_i64 of src/de.rs. -/
def deserialize_i64 : List Nat → Outcome Int := dispatch (read_integer i64_target)

/-- from_bytes of src/de.rs, generic over the deserialize method of the
target type: run the deserializer and fail with TrailingCharacters when
the reader is not empty afterwards. -/
def from_bytes {α : Type} (de : List Nat → Outcome α) (s : List Nat) : FResult α :=
  match de s with
  | Outcome.ok v rest => if rest.isEmpty then FResult.ok v else FResult.err Error.TrailingCharacters
  | Outcome.err e => FResult.err e
  | Outcome.panic => FResult.panic

/-- The payload of the large u64 test of src/de.rs: the ascii text of
18446744073709551615. -/
def large_u64_payload : List Nat :=
  [49, 56, 52, 52, 54, 55, 52, 52, 48, 55, 51, 55, 48, 57, 53, 53, 49, 54, 49, 53]

/-- The full input of the large u64 test of src/de.rs: an Int header
with declared payload size 244 followed by the 20 payload bytes. -/
def large_u64_input : List Nat := 195 :: 244 :: large_u64_payload

/-- The full input of the large negative i64 test of src/de.rs: an Int
header with declared payload size 245 followed by the 20 byte ascii text
of -9223372036854775808. -/
def large_i64_input : List Nat :=
  [195, 245, 45, 57, 50, 50, 51, 51, 55, 50, 48, 51, 54, 56, 53, 52, 55, 55, 53, 56, 48, 56]

theorem foldl_be_replicate_zero (m : Nat) :
    List.foldl (fun acc b => acc * 256 + b) 0 (List.replicate m 0) = 0 := by
  induction m with
  | zero => rfl
  | succ k ih => simpa [List.replicate_succ] using ih

theorem usize_from_be_bytes_replicate (m : Nat) (l : List Nat) :
    usize_from_be_bytes (List.replicate m 0 ++ l) = usize_from_be_bytes l := by
  unfold usize_from_be_bytes
  rw [List.foldl_append, foldl_be_replicate_zero]

theorem bytes_to_read_eq_spec_k : ∀ m, m < 16 → bytes_to_read m = some (spec_k m) := by
  decide

theorem nibble_table_eq :
    ∀ m, m < 16 → element_type_of_nibble m = some (spec_element_table.getD m ElementType.Null) := by
  decide

theorem drop_payload_loop_eq (n : Nat) (s : List Nat) :
    drop_payload_loop n s =
      if n ≤ s.length then Outcome.ok () (s.drop n) else Outcome.err Error.Eof := by
  induction n using Nat.strong_induction_on generalizing s with
  | _ n ih =>
    rw [drop_payload_loop]
    by_cases h0 : n = 0
    · subst h0
      simp
    · rw [if_neg h0]
      have hnpos : 0 < n := Nat.pos_of_ne_zero h0
      have hmin : min 256 n ≤ n := Nat.min_le_right _ _
      have hpos : 0 < min 256 n := lt_min (by norm_num) hnpos
      by_cases hlen : min 256 n ≤ s.length
      · simp only [read_exact]
        rw [if_pos hlen]
        show drop_payload_loop (n - min 256 n) (List.drop (min 256 n) s) =
          if n ≤ s.length then Outcome.ok () (List.drop n s) else Outcome.err Error.Eof
        rw [ih (n - min 256 n) (Nat.sub_lt hnpos hpos) (List.drop (min 256 n) s)]
        rw [List.length_drop, List.drop_drop]
        by_cases hn : n ≤ s.length
        · rw [if_pos (Nat.sub_le_sub_right hn _), if_pos hn, Nat.add_sub_cancel' hmin]
        · have hneg : ¬(n - min 256 n ≤ s.length - min 256 n) := by
            intro hcon
            apply hn
            calc n = n - min 256 n + min 256 n := (Nat.sub_add_cancel hmin).symm
            _ ≤ s.length - min 256 n + min 256 n := Nat.add_le_add_right hcon _
            _ = s.length := Nat.sub_add_cancel hlen
          rw [if_neg hneg, if_neg hn]
      · simp only [read_exact]
        rw [if_neg hlen]
        rw [if_neg (fun hns => hlen (hmin.trans hns))]

theorem drop_payload_eq (h : Header) (s : List Nat) :
    drop_payload h s =
      if h.payload_size ≤ s.length
      then Outcome.ok h.element_type (s.drop h.payload_size)
      else Outcome.err Error.Eof := by
  unfold drop_payload
  rw [drop_payload_loop_eq]
  by_cases hp : h.payload_size ≤ s.length
  · rw [if_pos hp, if_pos hp]
  · rw [if_neg hp, if_neg hp]

theorem drop_payload_ne_panic (h : Header) (s : List Nat) :
    drop_payload h s ≠ Outcome.panic := by
  rw [drop_payload_eq]
  split <;> simp

theorem read_bool_ne_panic (h : Header) (s : List Nat) :
    read_bool h s ≠ Outcome.panic := by
  unfold read_bool
  have hd := drop_payload_ne_panic h s
  split
  · split <;> simp
  · simp
  · simp_all

theorem read_null_ne_panic (h : Header) (s : List Nat) :
    read_null h s ≠ Outcome.panic := by
  unfold read_null
  have hd := drop_payload_ne_panic h s
  split
  · split <;> simp
  · simp
  · simp_all

theorem bounded_parse_consumes (p : List Nat → Except Error Int) (limit : Nat)
    (s : List Nat) (v : Int) (rest : List Nat)
    (hok : bounded_parse p limit s = Outcome.ok v rest) :
    rest = s.drop (min limit s.length) := by
  unfold bounded_parse at hok
  split at hok
  · rw [Outcome.ok.injEq] at hok
    exact hok.2.symm
  · simp at hok

/-- C1: reading one header consumes exactly 1 + k bytes, where k is 0
for a high nibble in 0 to 11 (and payload_size equals the nibble value)
and k is 1, 2, 4 or 8 for high nibble 12, 13, 14 or 15 (and payload_size
equals the big endian unsigned integer in those k trailing bytes,
zero extended); the low nibble selects the element type via the fixed 16
entry table. -/
theorem c1_read_header_contract (b : Nat) (rest : List Nat) (hb : b < 256)
    (hlen : spec_k (b / 16) ≤ rest.length) :
    read_header (b :: rest) =
      Outcome.ok
        { element_type := spec_element_table.getD (b % 16) ElementType.Null,
          payload_size :=
            if b / 16 ≤ 11 then b / 16
            else usize_from_be_bytes (rest.take (spec_k (b / 16))) }
        (rest.drop (spec_k (b / 16))) ∧
    (b :: rest).length = 1 + spec_k (b / 16) + (rest.drop (spec_k (b / 16))).length := by
  have hhi : b / 16 < 16 := by omega
  have hmod : b % 16 < 16 := by omega
  have hk : bytes_to_read (b / 16) = some (spec_k (b / 16)) :=
    bytes_to_read_eq_spec_k (b / 16) hhi
  have ht : element_type_of_nibble (b % 16) =
      some (spec_element_table.getD (b % 16) ElementType.Null) :=
    nibble_table_eq (b % 16) hmod
  have hre : read_exact (spec_k (b / 16)) rest =
      some (rest.take (spec_k (b / 16)), rest.drop (spec_k (b / 16))) := by
    rw [read_exact, if_pos hlen]
  constructor
  · simp only [read_header, hk, hre, ht]
    by_cases hb11 : b / 16 ≤ 11
    · have hk0 : spec_k (b / 16) = 0 := by rw [spec_k, if_pos hb11]
      simp [hk0, hb11]
    · have hk0 : spec_k (b / 16) ≠ 0 := by
        rw [spec_k, if_neg hb11]
        split <;> try split <;> try split
        all_goals simp
      simp [hk0, hb11, usize_from_be_bytes_replicate]
  · simp only [List.length_cons, List.length_drop]
    omega

/-- Witness for C1: the two byte header 0xc3 0xfa of the repository test
decodes to an Int header of payload size 250 consuming both bytes. -/
theorem c1_read_header_contract_witness :
    195 < 256 ∧ spec_k (195 / 16) ≤ [(250 : Nat)].length ∧
    read_header [195, 250] =
      Outcome.ok { element_type := ElementType.Int, payload_size := 250 } [] := by
  refine ⟨by decide, by decide, ?_⟩
  exact (c1_read_header_contract 195 [250] (by decide) (by decide)).1

/-- C3: for a fixed scalar value all five valid length mode encodings of
its header (length mode 0 to 11 directly, or 12, 13, 14, 15 with the
zero extended length in 1, 2, 4 or 8 trailing bytes) decode to the same
header and leave the same remaining stream, hence every decode path
produces the identical value; none of the non minimal encodings is
rejected. -/
theorem c3_non_canonical_header_equivalence (lo n : Nat) (t : ElementType)
    (rest : List Nat) (hlo16 : lo < 16) (hlo : element_type_of_nibble lo = some t)
    (hn : n ≤ 11) :
    (read_header ((16 * n + lo) :: rest) =
        Outcome.ok { element_type := t, payload_size := n } rest ∧
     read_header ((16 * 12 + lo) :: n :: rest) =
        Outcome.ok { element_type := t, payload_size := n } rest ∧
     read_header ((16 * 13 + lo) :: 0 :: n :: rest) =
        Outcome.ok { element_type := t, payload_size := n } rest ∧
     read_header ((16 * 14 + lo) :: 0 :: 0 :: 0 :: n :: rest) =
        Outcome.ok { element_type := t, payload_size := n } rest ∧
     read_header ((16 * 15 + lo) :: 0 :: 0 :: 0 :: 0 :: 0 :: 0 :: 0 :: n :: rest) =
        Outcome.ok { element_type := t, payload_size := n } rest) ∧
    ∀ (α : Type) (f : Header → List Nat → Outcome α),
      dispatch f ((16 * n + lo) :: rest) = f { element_type := t, payload_size := n } rest ∧
      dispatch f ((16 * 12 + lo) :: n :: rest) = f { element_type := t, payload_size := n } rest ∧
      dispatch f ((16 * 13 + lo) :: 0 :: n :: rest) = f { element_type := t, payload_size := n } rest ∧
      dispatch f ((16 * 14 + lo) :: 0 :: 0 :: 0 :: n :: rest) = f { element_type := t, payload_size := n } rest ∧
      dispatch f ((16 * 15 + lo) :: 0 :: 0 :: 0 :: 0 :: 0 :: 0 :: 0 :: n :: rest) = f { element_type := t, payload_size := n } rest := by
  have h0d : (16 * n + lo) / 16 = n := by omega
  have h0m : (16 * n + lo) % 16 = lo := by omega
  have h1d : (16 * 12 + lo) / 16 = 12 := by omega
  have h1m : (16 * 12 + lo) % 16 = lo := by omega
  have h2d : (16 * 13 + lo) / 16 = 13 := by omega
  have h2m : (16 * 13 + lo) % 16 = lo := by omega
  have h3d : (16 * 14 + lo) / 16 = 14 := by omega
  have h3m : (16 * 14 + lo) % 16 = lo := by omega
  have h4d : (16 * 15 + lo) / 16 = 15 := by omega
  have h4m : (16 * 15 + lo) % 16 = lo := by omega
  have e0 : read_header ((16 * n + lo) :: rest) =
      Outcome.ok { element_type := t, payload_size := n } rest := by
    simp [read_header, h0d, h0m, bytes_to_read, hn, read_exact, hlo]
  have e1 : read_header ((16 * 12 + lo) :: n :: rest) =
      Outcome.ok { element_type := t, payload_size := n } rest := by
    simp [read_header, h1d, h1m, bytes_to_read, read_exact, hlo,
      usize_from_be_bytes_replicate, usize_from_be_bytes]
  have e2 : read_header ((16 * 13 + lo) :: 0 :: n :: rest) =
      Outcome.ok { element_type := t, payload_size := n } rest := by
    simp [read_header, h2d, h2m, bytes_to_read, read_exact, hlo,
      usize_from_be_bytes_replicate, usize_from_be_bytes]
  have e3 : read_header ((16 * 14 + lo) :: 0 :: 0 :: 0 :: n :: rest) =
      Outcome.ok { element_type := t, payload_size := n } rest := by
    simp [read_header, h3d, h3m, bytes_to_read, read_exact, hlo,
      usize_from_be_bytes_replicate, usize_from_be_bytes]
  have e4 : read_header ((16 * 15 + lo) :: 0 :: 0 :: 0 :: 0 :: 0 :: 0 :: 0 :: n :: rest) =
      Outcome.ok { element_type := t, payload_size := n } rest := by
    simp [read_header, h4d, h4m, bytes_to_read, read_exact, hlo,
      usize_from_be_bytes_replicate, usize_from_be_bytes]
  refine ⟨⟨e0, e1, e2, e3, e4⟩, ?_⟩
  intro α f
  exact ⟨by rw [dispatch, e0], by rw [dispatch, e1], by rw [dispatch, e2],
    by rw [dispatch, e3], by rw [dispatch, e4]⟩

/-- Witness for C3: the json value 1, element type Int with payload 0x31,
in its shortest and its one extra length byte encodings. -/
theorem c3_non_canonical_header_equivalence_witness :
    element_type_of_nibble 3 = some ElementType.Int ∧
    read_header [19, 49] = Outcome.ok { element_type := ElementType.Int, payload_size := 1 } [49] ∧
    read_header [195, 1, 49] = Outcome.ok { element_type := ElementType.Int, payload_size := 1 } [49] := by
  have hc := c3_non_canonical_header_equivalence 3 1 ElementType.Int [49]
    (by decide) (by decide) (by decide)
  exact ⟨by decide, hc.1.1, hc.1.2.1⟩

/-- Counterexample for C2: in the large u64 test input of src/de.rs the
Int header declares payload size 244 while only 20 payload bytes follow;
the decode nevertheless succeeds and leaves an empty stream, so it
advanced by 20 payload bytes past the header, not by payload_size. -/
theorem c2_exact_consumption_counterexample :
    read_header large_u64_input =
      Outcome.ok { element_type := ElementType.Int, payload_size := 244 } large_u64_payload ∧
    read_integer u64_target { element_type := ElementType.Int, payload_size := 244 }
        large_u64_payload = Outcome.ok 18446744073709551615 [] ∧
    large_u64_payload.length = 20 ∧
    from_bytes deserialize_u64 large_u64_input = FResult.ok 18446744073709551615 := by
  refine ⟨by decide, by decide, by decide, by decide⟩

/-- C2 amended: on a successful scalar decode the stream advances by
min payload_size (length of the stream) payload bytes beyond the header,
never more than payload_size, and by exactly payload_size whenever that
many bytes remain; drop_payload always consumes exactly payload_size
bytes when it succeeds. -/
theorem c2_payload_consumption_amended (t : IntTarget) (h : Header) (s : List Nat) :
    (∀ v rest, read_integer t h s = Outcome.ok v rest →
      rest = s.drop (min h.payload_size s.length) ∧
      (h.payload_size ≤ s.length → rest = s.drop h.payload_size)) ∧
    (∀ e rest, drop_payload h s = Outcome.ok e rest →
      h.payload_size ≤ s.length ∧ rest = s.drop h.payload_size) := by
  constructor
  · intro v rest hok
    have hrest : rest = s.drop (min h.payload_size s.length) := by
      unfold read_integer at hok
      split at hok
      · exact bounded_parse_consumes _ _ _ _ _ hok
      · exact bounded_parse_consumes _ _ _ _ _ hok
      · simp at hok
    refine ⟨hrest, fun hle => ?_⟩
    rw [hrest, min_eq_left hle]
  · intro e rest hok
    rw [drop_payload_eq] at hok
    split at hok
    · rw [Outcome.ok.injEq] at hok
      constructor
      · assumption
      · exact hok.2.symm
    · simp at hok

/-- Witness for C2 amended: an Int element with payload size 2 over the
stream 1 2 x leaves exactly the byte x. -/
theorem c2_payload_consumption_amended_witness :
    read_integer u64_target { element_type := ElementType.Int, payload_size := 2 }
      [49, 50, 99] = Outcome.ok 12 [99] ∧
    ([99] : List Nat) = List.drop 2 [49, 50, 99] := by
  have hc := (c2_payload_consumption_amended u64_target
    { element_type := ElementType.Int, payload_size := 2 } [49, 50, 99]).1
    12 [99] (by decide)
  exact ⟨by decide, hc.2 (by decide)⟩

/-- C4: from_bytes fails with the trailing data error whenever bytes
remain after the one top level value; a single Null element decodes, the
same element followed by any extra byte fails with TrailingCharacters. -/
theorem c4_trailing_data :
    from_bytes deserialize_any [0] = FResult.ok AnyValue.unit ∧
    ∀ (b : Nat) (rest : List Nat),
      from_bytes deserialize_any (0 :: b :: rest) = FResult.err Error.TrailingCharacters := by
  have hnull : ∀ (s : List Nat),
      deserialize_any (0 :: s) = Outcome.ok AnyValue.unit s := by
    intro s
    have hh : read_header (0 :: s) =
        Outcome.ok { element_type := ElementType.Null, payload_size := 0 } s := by
      simp [read_header, bytes_to_read, read_exact, element_type_of_nibble]
    have hn : read_null { element_type := ElementType.Null, payload_size := 0 } s =
        Outcome.ok () s := by
      rw [read_null, drop_payload_eq]
      simp
    rw [deserialize_any, dispatch, hh]
    simp [visit_any, hn]
  constructor
  · rw [from_bytes, hnull]
    simp
  · intro b rest
    rw [from_bytes, hnull]
    simp

/-- C5: the Int payload text 18446744073709551615 decoded at the u64
target yields the maximum u64 value, and the Int payload text
-9223372036854775808 decoded at the i64 target yields the minimum i64
value, on the exact inputs of the repository tests. -/
theorem c5_extreme_values :
    from_bytes deserialize_u64 large_u64_input = FResult.ok 18446744073709551615 ∧
    from_bytes deserialize_i64 large_i64_input = FResult.ok (-9223372036854775808) := by
  refine ⟨by decide, by decide⟩

/-- Counterexample for C6: on the one byte input 0x0d, a Reserved13
element of payload size 0, deserialize_any hits the todo branch and
panics instead of failing with an unexpected element type error. -/
theorem c6_reserved_counterexample :
    deserialize_any [13] = Outcome.panic ∧
    Outcome.panic ≠ Outcome.err (α := AnyValue) (Error.UnexpectedType ElementType.Reserved13) := by
  exact ⟨rfl, by decide⟩

/-- C6 amended: through the integer entry point a header whose element
type is Reserved13, Reserved14 or Reserved15 always fails with the
unexpected element type error naming that tag, regardless of the
declared payload size; through the boolean entry point it fails with the
same error whenever the declared payload bytes are present, read_bool
draining the payload before its type check, so a truncated reserved
payload fails earlier with the truncated read error; through
deserialize_any a reserved tag panics instead. A reserved tag is never a
silent skip. -/
theorem c6_reserved_rejection_amended (t : IntTarget) (s : List Nat) (h : Header)
    (rest : List Nat) (hr : read_header s = Outcome.ok h rest)
    (hres : h.element_type = ElementType.Reserved13 ∨
            h.element_type = ElementType.Reserved14 ∨
            h.element_type = ElementType.Reserved15) :
    dispatch (read_integer t) s = Outcome.err (Error.UnexpectedType h.element_type) ∧
    read_integer t h rest = Outcome.err (Error.UnexpectedType h.element_type) ∧
    (h.payload_size ≤ rest.length →
      read_bool h rest = Outcome.err (Error.UnexpectedType h.element_type)) ∧
    deserialize_any s = Outcome.panic := by
  have hint : read_integer t h rest = Outcome.err (Error.UnexpectedType h.element_type) := by
    rcases hres with he | he | he <;> rw [read_integer] <;> rw [he]
  have hbool : h.payload_size ≤ rest.length →
      read_bool h rest = Outcome.err (Error.UnexpectedType h.element_type) := by
    intro hle
    rw [read_bool, drop_payload_eq, if_pos hle]
    rcases hres with he | he | he <;> rw [he]
  have hany : visit_any h rest = Outcome.panic := by
    rcases hres with he | he | he <;> rw [visit_any] <;> rw [he]
  refine ⟨?_, hint, hbool, ?_⟩
  · rw [dispatch, hr]
    exact hint
  · rw [deserialize_any, dispatch, hr]
    exact hany

/-- Witness for C6 amended: the input 0x0d fails through the integer
entry point with the unexpected element type error for Reserved13, and
the same reserved header with its empty payload present fails through
read_bool with the same error. -/
theorem c6_reserved_rejection_amended_witness :
    dispatch (read_integer i64_target) [13] =
      Outcome.err (Error.UnexpectedType ElementType.Reserved13) ∧
    read_bool { element_type := ElementType.Reserved13, payload_size := 0 } [] =
      Outcome.err (Error.UnexpectedType ElementType.Reserved13) := by
  have hc := c6_reserved_rejection_amended i64_target [13]
    { element_type := ElementType.Reserved13, payload_size := 0 } []
    (by decide) (Or.inl rfl)
  exact ⟨hc.1, hc.2.2.1 (by decide)⟩

/-- Counterexample for C7: on the input 0x07, a Text element of payload
size 0, the integer entry point and the boolean entry point fail with
the very same error value, which names only the actual element type, so
the error does not identify the expected element type. -/
theorem c7_error_payload_counterexample :
    from_bytes deserialize_i64 [7] = FResult.err (Error.UnexpectedType ElementType.Text) ∧
    from_bytes deserialize_bool [7] = FResult.err (Error.UnexpectedType ElementType.Text) := by
  have hh : read_header [7] =
      Outcome.ok { element_type := ElementType.Text, payload_size := 0 } [] := by decide
  constructor
  · decide
  · rw [from_bytes, deserialize_bool, dispatch, hh]
    simp [read_bool, drop_payload_eq]

/-- C7 amended: when the caller requests a concrete scalar shape and the
element present is incompatible, the decode fails with the typed error
UnexpectedType carrying the actual element type, with no coercion
between scalar families; the expected type is fixed by the entry point
but is not part of the error value. -/
theorem c7_scalar_mismatch_amended :
    (∀ (t : IntTarget) (h : Header) (s : List Nat),
       h.element_type ≠ ElementType.Int → h.element_type ≠ ElementType.Int5 →
       read_integer t h s = Outcome.err (Error.UnexpectedType h.element_type)) ∧
    (∀ (h : Header) (s : List Nat),
       h.element_type ≠ ElementType.True → h.element_type ≠ ElementType.False →
       h.payload_size ≤ s.length →
       read_bool h s = Outcome.err (Error.UnexpectedType h.element_type)) := by
  constructor
  · intro t h s h1 h2
    rw [read_integer]
    cases he : h.element_type
    all_goals simp_all
  · intro h s h1 h2 hlen
    rw [read_bool, drop_payload_eq, if_pos hlen]
    cases he : h.element_type
    all_goals simp_all

/-- Witness for C7 amended: a Text element of payload size 0 is rejected
by the integer path with the unexpected element type error naming Text. -/
theorem c7_scalar_mismatch_amended_witness :
    read_integer u64_target { element_type := ElementType.Text, payload_size := 0 } [] =
      Outcome.err (Error.UnexpectedType ElementType.Text) := by
  exact c7_scalar_mismatch_amended.1 u64_target
    { element_type := ElementType.Text, payload_size := 0 } [] (by decide) (by decide)

/-- C8: a True or False element drains its declared payload bytes and
returns the corresponding boolean, and a Null element likewise drains
any declared payload bytes, a nonzero Null payload included, and emits
the unit value. -/
theorem c8_drain_and_emit (h : Header) (s : List Nat) (hs : h.payload_size ≤ s.length) :
    (h.element_type = ElementType.True →
       read_bool h s = Outcome.ok true (s.drop h.payload_size)) ∧
    (h.element_type = ElementType.False →
       read_bool h s = Outcome.ok false (s.drop h.payload_size)) ∧
    (h.element_type = ElementType.Null →
       read_null h s = Outcome.ok () (s.drop h.payload_size)) := by
  have hdp : drop_payload h s = Outcome.ok h.element_type (s.drop h.payload_size) := by
    rw [drop_payload_eq, if_pos hs]
  refine ⟨fun he => ?_, fun he => ?_, fun he => ?_⟩
  · rw [read_bool, hdp]
    rw [he]
  · rw [read_bool, hdp]
    rw [he]
  · rw [read_null, hdp]
    rw [he]

/-- Witness for C8: a True element with payload size 2 over the stream
9 9 7 consumes the two payload bytes and returns true, and a Null
element with the nonzero payload size 1 over the stream 5 is tolerated
and consumes its byte. -/
theorem c8_drain_and_emit_witness :
    read_bool { element_type := ElementType.True, payload_size := 2 } [9, 9, 7] =
      Outcome.ok true [7] ∧
    read_null { element_type := ElementType.Null, payload_size := 1 } [5] =
      Outcome.ok () [] := by
  refine ⟨?_, ?_⟩
  · exact (c8_drain_and_emit { element_type := ElementType.True, payload_size := 2 }
      [9, 9, 7] (by decide)).1 rfl
  · exact (c8_drain_and_emit { element_type := ElementType.Null, payload_size := 1 }
      [5] (by decide)).2.2 rfl

/-- C9: read_header is total on well formed byte streams: for every
first byte value below 256 both nibble dispatches are covered, the
unreachable branches never execute, and read_header either returns a
header or fails with the truncated read error; it never panics. -/
theorem c9_read_header_total (s : List Nat) (hws : ∀ b ∈ s, b < 256) :
    read_header s ≠ Outcome.panic ∧
    ((∃ h rest, read_header s = Outcome.ok h rest) ∨
      read_header s = Outcome.err Error.Eof) := by
  cases s with
  | nil =>
    constructor
    · simp [read_header]
    · right
      rfl
  | cons b s1 =>
    have hb : b < 256 := hws b (List.mem_cons_self b s1)
    have hhi : b / 16 < 16 := by omega
    have hmod : b % 16 < 16 := by omega
    have hk : bytes_to_read (b / 16) = some (spec_k (b / 16)) :=
      bytes_to_read_eq_spec_k (b / 16) hhi
    have ht : element_type_of_nibble (b % 16) =
        some (spec_element_table.getD (b % 16) ElementType.Null) :=
      nibble_table_eq (b % 16) hmod
    by_cases hlen : spec_k (b / 16) ≤ s1.length
    · have hre : read_exact (spec_k (b / 16)) s1 =
          some (s1.take (spec_k (b / 16)), s1.drop (spec_k (b / 16))) := by
        rw [read_exact, if_pos hlen]
      constructor
      · simp [read_header, hk, hre, ht]
      · left
        refine ⟨{ element_type := spec_element_table.getD (b % 16) ElementType.Null,
                  payload_size :=
                    if spec_k (b / 16) = 0 then b / 16
                    else usize_from_be_bytes
                      (List.replicate (8 - spec_k (b / 16)) 0 ++ List.take (spec_k (b / 16)) s1) },
                List.drop (spec_k (b / 16)) s1, ?_⟩
        simp [read_header, hk, hre, ht]
    · have hre : read_exact (spec_k (b / 16)) s1 = none := by
        rw [read_exact, if_neg hlen]
      constructor
      · simp [read_header, hk, hre]
      · right
        simp only [read_header, hk, hre]

/-- Witness for C9: the empty stream is well formed and read_header
does not panic on it. -/
theorem c9_read_header_total_witness :
    read_header [] ≠ Outcome.panic := by
  exact (c9_read_header_total [] (by simp)).1

/-- C10: deserialize_any returns, with a value or an error, only when
the first element is Null, True or False; for every input whose first
element carries any other element type, a well formed Int included, it
hits the todo branch and panics. -/
theorem c10_deserialize_any_incomplete (s : List Nat) (h : Header) (rest : List Nat)
    (hr : read_header s = Outcome.ok h rest) :
    ((h.element_type = ElementType.Null ∨ h.element_type = ElementType.True ∨
        h.element_type = ElementType.False) → deserialize_any s ≠ Outcome.panic) ∧
    (h.element_type ≠ ElementType.Null → h.element_type ≠ ElementType.True →
      h.element_type ≠ ElementType.False → deserialize_any s = Outcome.panic) := by
  have hda : deserialize_any s = visit_any h rest := by
    rw [deserialize_any, dispatch, hr]
  constructor
  · intro hin
    rw [hda]
    have hnn := read_null_ne_panic h rest
    have hbn := read_bool_ne_panic h rest
    rcases hin with he | he | he
    · rw [visit_any, he]
      cases hcn : read_null h rest <;> simp_all
    · rw [visit_any, he]
      cases hcb : read_bool h rest <;> simp_all
    · rw [visit_any, he]
      cases hcb : read_bool h rest <;> simp_all
  · intro h1 h2 h3
    rw [hda]
    cases he : h.element_type
    all_goals simp_all [visit_any]

/-- Witness for C10: the well formed Int element 0x13 0x31, the json
number 1, makes deserialize_any panic. -/
theorem c10_deserialize_any_incomplete_witness :
    deserialize_any [19, 49] = Outcome.panic := by
  exact (c10_deserialize_any_incomplete [19, 49]
    { element_type := ElementType.Int, payload_size := 1 } [49] (by decide)).2
    (by decide) (by decide) (by decide)
